import Mathlib

/-
Verification of `scripts/check_wandb_models.py`.

The script reconciles Dataiku saved models against W&B model artifacts:
it checks a required shared secret, logs in to W&B, lists saved model ids,
collects all model-typed artifacts from the registry, matches each model's
derived identifier against artifact names by substring containment, and
finally decides the process exit code from the `FAIL_ON_NO_PUBLISH` switch.

The embedding below models Python strings as Lean `String`s (lists of
characters), Python `str.lower()` as a character-wise lowering, Python's
`in` operator on strings as contiguous-sublist containment on the
character lists, and optional / possibly-absent values as `Option`.
Calls to the two external platforms (the Local Model Source and the
Remote Artifact Catalog) are recorded as events in a trace, so that
theorems can state which remote interactions a given execution performs.
-/

/-- Model of Python `str.lower()` (character-wise lowering; the script only
compares ASCII type tags such as `"model"`). -/
def pyLower (s : String) : String := String.mk (s.data.map Char.toLower)

/-- Model of Python `needle in hay` on strings: contiguous substring
containment, unanchored. -/
def strContains (needle hay : String) : Bool := decide (needle.data <:+: hay.data)

/-- One W&B artifact as enumerated from a registry collection, with the
fields the script reads: `type` (possibly absent), `source_name`,
`qualified_name`. -/
structure WBArtifact where
  type : Option String
  source_name : String
  qualified_name : String
deriving DecidableEq

/-- One W&B registry collection: its name and its artifacts in enumeration
order. -/
structure WBCollection where
  name : String
  artifacts : List WBArtifact
deriving DecidableEq

/-- An entry of the script's `artifacts` list (lines 65-69): the dict
`{"collection": ..., "artifact": artifact.source_name, "path": artifact.qualified_name}`. -/
structure ArtifactRec where
  collection : String
  artifact : String
  path : String
deriving DecidableEq

/-- An entry of the script's `artifact_names` list (line 73): the dict
`{"name": a["artifact"], "path": a["path"]}`. -/
structure ArtifactName where
  name : String
  path : String
deriving DecidableEq

/-- The type filter of line 64: `artifact.type and artifact.type.lower() == "model"`.
`none` models an absent/null type; the emptiness test models Python's
truthiness short-circuit (an empty string is falsy). -/
def is_model_type : Option String → Bool
  | none => false
  | some s => !(s == "") && (pyLower s == "model")

/-- Lines 60-69: collect, across every collection and in enumeration order,
the artifacts passing the model-type filter, projected to `ArtifactRec`. -/
def collect_artifacts (cols : List WBCollection) : List ArtifactRec :=
  cols.flatMap (fun c =>
    (c.artifacts.filter (fun a => is_model_type a.type)).map
      (fun a => ⟨c.name, a.source_name, a.qualified_name⟩))

/-- Line 73: project each collected record to its name/path pair. -/
def artifact_names (arts : List ArtifactRec) : List ArtifactName :=
  arts.map (fun a => ⟨a.artifact, a.path⟩)

/-- Line 84: `model_identifier = f"dataiku-{sm}-{active_id}"`. -/
def model_identifier (sm active_id : String) : String :=
  "dataiku-" ++ sm ++ "-" ++ active_id

/-- Line 88: `[a for a in artifact_names if model_identifier in a["name"]]`. -/
def candidate_artifacts (ident : String) (names : List ArtifactName) : List ArtifactName :=
  names.filter (fun a => strContains ident a.name)

/-- Split a character list at the first `':'`, returning the parts before and
after it, or `none` when no `':'` occurs. -/
def splitOnceColon : List Char → Option (List Char × List Char)
  | [] => none
  | x :: xs =>
    if x = ':' then some ([], xs)
    else
      match splitOnceColon xs with
      | none => none
      | some p => some (x :: p.1, p.2)

/-- Lines 97-100: `full.split(":", 1)` when `":" in full`, else the whole
name with an absent version tag. -/
def wb_split (s : String) : String × Option String :=
  match splitOnceColon s.data with
  | none => (s, none)
  | some p => (String.mk p.1, some (String.mk p.2))

/-- The Dataiku project as the script reads it: the listed saved-model ids
(line 54, in listing order) and the active-version resolution of line 81. -/
structure DSSProject where
  saved_model_ids : List String
  get_active_version : String → String

/-- The per-model outcome of one loop iteration (lines 76-107): the model
id, its active version id, the derived identifier, and the matching
artifact names in collection order. -/
structure ReconciliationResult where
  modelId : String
  activeId : String
  identifier : String
  matched : List ArtifactName
deriving DecidableEq

/-- The loop body of lines 76-88 applied to every saved model id, in
listing order. -/
def reconcile (proj : DSSProject) (names : List ArtifactName) : List ReconciliationResult :=
  proj.saved_model_ids.map (fun sm =>
    let active_id := proj.get_active_version sm
    let ident := model_identifier sm active_id
    ⟨sm, active_id, ident, candidate_artifacts ident names⟩)

/-- Lines 74, 90-94: `any_published` starts `False` and is set `True` by any
iteration whose candidate list is non-empty (`continue` leaves it alone). -/
def any_published_fold (results : List ReconciliationResult) : Bool :=
  results.foldl (fun acc r => if r.matched.isEmpty then acc else true) false

/-- Line 112: `os.getenv("FAIL_ON_NO_PUBLISH", "false").lower() == "true"`,
with `none` modelling an unset environment variable. -/
def fail_flag (v : Option String) : Bool := pyLower (v.getD "false") == "true"

/-- Remote interactions of the in-scope collaborators (the Local Model
Source and the Remote Artifact Catalog), recorded in execution order. -/
inductive Event where
  | listSavedModels
  | enumerateRegistry
  | getActiveVersion (id : String)
deriving DecidableEq

/-- Outcome of enumerating the registry (lines 62-63): either the full
collection list, or a `CommError` carrying the collections yielded before
the failure (which the script's `artifacts` list would have partially
accumulated) and the error text. -/
inductive EnumResult where
  | ok (cols : List WBCollection)
  | fail (colsSoFar : List WBCollection) (err : String)

/-- Observable result of a completed (non-raising) run: the per-model
results, the final `any_published`, and the process exit code. -/
structure RunReport where
  results : List ReconciliationResult
  any_published : Bool
  exitCode : Nat
deriving DecidableEq

/-- Outcome of the reconciliation part of the script (lines 54-113):
either a completed run, or the `RuntimeError` of line 71 wrapping a
registry enumeration failure. -/
inductive CoreOutcome where
  | ok (report : RunReport)
  | collectionError (msg : String)
deriving DecidableEq

/-- Inputs of the reconciliation part: the Dataiku project handle, the
registry enumeration behaviour, and the `FAIL_ON_NO_PUBLISH` variable. -/
structure CoreEnv where
  project : DSSProject
  registry : EnumResult
  failOnNoPublish : Option String

/-- Lines 54-113 of the script. Empty saved-model list: `exit(0)` at line 57,
before the registry is ever enumerated. Otherwise the registry is
enumerated once; a `CommError` is re-raised as the wrapped `RuntimeError`
of line 71 before any per-model work; on success every model is checked
against the one materialized artifact pool, and lines 109-113 decide the
exit code. -/
def runCore (env : CoreEnv) : CoreOutcome × List Event :=
  let ids := env.project.saved_model_ids
  if ids.isEmpty then
    (CoreOutcome.ok ⟨[], false, 0⟩, [Event.listSavedModels])
  else
    match env.registry with
    | EnumResult.fail _ err =>
        (CoreOutcome.collectionError ("Failed to list W&B artifacts: " ++ err),
          [Event.listSavedModels, Event.enumerateRegistry])
    | EnumResult.ok cols =>
        let names := artifact_names (collect_artifacts cols)
        let results := reconcile env.project names
        let anyPub := any_published_fold results
        let code := if !anyPub && fail_flag env.failOnNoPublish then 1 else 0
        (CoreOutcome.ok ⟨results, anyPub, code⟩,
          Event.listSavedModels :: Event.enumerateRegistry :: ids.map Event.getActiveVersion)

/-- One entry of `auth_info["secrets"]`: a key and a possibly-absent value. -/
structure Secret where
  key : String
  value : Option String
deriving DecidableEq

/-- Lines 40-44: scan the secrets for the first entry keyed `"wandbcred"`
and take its value; `none` when no such entry exists or its value is absent. -/
def secret_value (secrets : List Secret) : Option String :=
  match secrets.find? (fun s => s.key == "wandbcred") with
  | none => none
  | some s => s.value

/-- Line 45: Python's `not secret_value` — true for an absent value and for
an empty string (both falsy). -/
def secret_missing : Option String → Bool
  | none => true
  | some s => s == ""

/-- The module-level names the script has assigned by the time line 50
executes. Line 28, the only assignment to `WANDB_API_KEY`, is commented
out, so that name is not among them. -/
def module_assigned_names : List String :=
  ["DATAIKU_API_TOKEN_DEV", "DATAIKU_API_TOKEN_STAGING", "DATAIKU_API_TOKEN_PROD",
   "DATAIKU_INSTANCE_DEV_URL", "DATAIKU_INSTANCE_STAGING_URL", "DATAIKU_INSTANCE_PROD_URL",
   "DATAIKU_PROJECT_KEY", "DATAIKU_INFRA_ID_STAGING", "DATAIKU_INFRA_ID_PROD",
   "RUN_TESTS_ONLY", "PYTHON_SCRIPT", "CLIENT_CERTIFICATE",
   "client", "project", "auth_info", "secret_value"]

/-- Inputs of the whole script: the auth-info secrets returned by the
internal platform, plus the core inputs. Credential acquisition itself
(the DSS client handle and the auth-info fetch) is the external
Credential Resolver, outside the modelled collaborator calls. -/
structure ScriptEnv where
  authSecrets : List Secret
  project : DSSProject
  registry : EnumResult
  failOnNoPublish : Option String

/-- Outcome of the whole script: the configuration `Exception` of line 46,
the `NameError` Python raises at line 50 when evaluating an unassigned
global, or the outcome of the reconciliation part. -/
inductive ScriptOutcome where
  | configError (msg : String)
  | nameError (missing : String)
  | finished (outcome : CoreOutcome)
deriving DecidableEq

/-- Lines 39-113. The secret check of lines 40-46 runs first; if it passes,
line 50 evaluates the global `WANDB_API_KEY`, which raises `NameError`
unless that name was assigned at module level; only then would the
reconciliation part run. -/
def runScript (env : ScriptEnv) : ScriptOutcome × List Event :=
  if secret_missing (secret_value env.authSecrets) then
    (ScriptOutcome.configError "Secret 'wandbcred' not found", [])
  else if module_assigned_names.contains "WANDB_API_KEY" then
    let r := runCore ⟨env.project, env.registry, env.failOnNoPublish⟩
    (ScriptOutcome.finished r.1, r.2)
  else
    (ScriptOutcome.nameError "WANDB_API_KEY", [])

/-- A concrete registry snapshot exercising the type filter: a model-typed
artifact matching `dataiku-m1-v42`, a `Dataset` artifact whose name would
also match, an untyped artifact, and a model-typed artifact for another
model. -/
def sampleCols : List WBCollection :=
  [⟨"col", [⟨some "model", "dataiku-m1-v42:v0", "e/p/dataiku-m1-v42:v0"⟩,
            ⟨some "Dataset", "dataiku-m1-v42:v9", "e/p/x"⟩,
            ⟨none, "zzz", "e/p/z"⟩,
            ⟨some "MODEL", "dataiku-m2-v1:v0", "e/p/dataiku-m2-v1:v0"⟩]⟩]

/-- A concrete project with one saved model `m1` whose active version is `v42`. -/
def sampleProj : DSSProject := ⟨["m1"], fun _ => "v42"⟩

/-- Core inputs: one model, the sample registry, switch unset. -/
def sampleEnvA : CoreEnv := ⟨sampleProj, EnumResult.ok sampleCols, none⟩

/-- Core inputs: one model, an empty registry, switch set to `"TRUE"`. -/
def sampleEnvB : CoreEnv := ⟨sampleProj, EnumResult.ok [], some "TRUE"⟩

/-- Core inputs: no saved models, a non-empty registry, switch set. -/
def sampleEnvEmpty : CoreEnv := ⟨⟨[], fun _ => "v42"⟩, EnumResult.ok sampleCols, some "true"⟩

/-- Core inputs: one model and a registry whose enumeration fails after
yielding the sample collections. -/
def sampleEnvFail : CoreEnv := ⟨sampleProj, EnumResult.fail sampleCols "timeout", none⟩

/-- The report `runCore` produces on `sampleEnvA`. -/
def sampleRep : RunReport :=
  ⟨[⟨"m1", "v42", "dataiku-m1-v42", [⟨"dataiku-m1-v42:v0", "e/p/dataiku-m1-v42:v0"⟩]⟩], true, 0⟩

/-- The single per-model result inside `sampleRep`. -/
def sampleResult : ReconciliationResult :=
  ⟨"m1", "v42", "dataiku-m1-v42", [⟨"dataiku-m1-v42:v0", "e/p/dataiku-m1-v42:v0"⟩]⟩

/-- The report `runCore` produces on `sampleEnvB`: the model is checked,
nothing matches, and the switch forces exit code 1. -/
def sampleRepB : RunReport := ⟨[⟨"m1", "v42", "dataiku-m1-v42", []⟩], false, 1⟩

/-
Helper lemmas about the embedded operations.
-/

theorem strContains_iff (n h : String) : strContains n h = true ↔ n.data <:+: h.data := by
  simp [strContains]

theorem is_model_type_iff (t : Option String) :
    is_model_type t = true ↔ ∃ s, t = some s ∧ pyLower s = "model" := by
  constructor
  · intro h
    cases t with
    | none => simp [is_model_type] at h
    | some s =>
      refine ⟨s, rfl, ?_⟩
      simp only [is_model_type, Bool.and_eq_true, beq_iff_eq] at h
      exact h.2
  · rintro ⟨s, rfl, hs⟩
    simp only [is_model_type, Bool.and_eq_true, Bool.not_eq_true', beq_eq_false_iff_ne, ne_eq,
      beq_iff_eq]
    refine ⟨?_, hs⟩
    intro he
    rw [he] at hs
    exact absurd hs (by decide)

theorem mem_collect_artifacts (cols : List WBCollection) (rec : ArtifactRec) :
    rec ∈ collect_artifacts cols ↔
      ∃ c ∈ cols, ∃ a ∈ c.artifacts, is_model_type a.type = true ∧
        rec = ⟨c.name, a.source_name, a.qualified_name⟩ := by
  simp only [collect_artifacts, List.mem_flatMap, List.mem_map, List.mem_filter]
  constructor
  · rintro ⟨c, hc, a, ⟨ha, hty⟩, rfl⟩
    exact ⟨c, hc, a, ha, hty, rfl⟩
  · rintro ⟨c, hc, a, ha, hty, rfl⟩
    exact ⟨c, hc, a, ⟨ha, hty⟩, rfl⟩

theorem any_published_foldl_aux (acc : Bool) (l : List ReconciliationResult) :
    l.foldl (fun acc r => if r.matched.isEmpty then acc else true) acc
      = (acc || l.any fun r => !r.matched.isEmpty) := by
  induction l generalizing acc with
  | nil => simp
  | cons r rs ih =>
    simp only [List.foldl_cons, List.any_cons, ih]
    by_cases h : r.matched.isEmpty <;> simp [h, Bool.or_assoc]

theorem any_published_fold_eq (results : List ReconciliationResult) :
    any_published_fold results = results.any fun r => !r.matched.isEmpty := by
  rw [any_published_fold, any_published_foldl_aux, Bool.false_or]

theorem splitOnceColon_of_not_mem (l : List Char) (h : ':' ∉ l) : splitOnceColon l = none := by
  induction l with
  | nil => rfl
  | cons x xs ih =>
    simp only [List.mem_cons, not_or] at h
    simp only [splitOnceColon]
    rw [if_neg fun hx => h.1 hx.symm, ih h.2]

theorem splitOnceColon_append (l₁ l₂ : List Char) (h : ':' ∉ l₁) :
    splitOnceColon (l₁ ++ ':' :: l₂) = some (l₁, l₂) := by
  induction l₁ with
  | nil => simp [splitOnceColon]
  | cons x xs ih =>
    simp only [List.mem_cons, not_or] at h
    simp only [List.cons_append, splitOnceColon, List.append_eq]
    rw [if_neg fun hx => h.1 hx.symm, ih h.2]

theorem runCore_nil (env : CoreEnv) (h : env.project.saved_model_ids = []) :
    runCore env = (CoreOutcome.ok ⟨[], false, 0⟩, [Event.listSavedModels]) := by
  simp [runCore, h]

theorem runCore_fail_eq (env : CoreEnv) (hne : env.project.saved_model_ids ≠ [])
    (colsSoFar : List WBCollection) (err : String)
    (hreg : env.registry = EnumResult.fail colsSoFar err) :
    runCore env =
      (CoreOutcome.collectionError ("Failed to list W&B artifacts: " ++ err),
        [Event.listSavedModels, Event.enumerateRegistry]) := by
  cases hl : env.project.saved_model_ids with
  | nil => exact absurd hl hne
  | cons x xs => simp [runCore, hl, hreg]

theorem runCore_ok_eq (env : CoreEnv) (hne : env.project.saved_model_ids ≠ [])
    (cols : List WBCollection) (hreg : env.registry = EnumResult.ok cols) :
    runCore env =
      (CoreOutcome.ok
          ⟨reconcile env.project (artifact_names (collect_artifacts cols)),
            any_published_fold (reconcile env.project (artifact_names (collect_artifacts cols))),
            if !any_published_fold (reconcile env.project (artifact_names (collect_artifacts cols)))
                && fail_flag env.failOnNoPublish then 1 else 0⟩,
        Event.listSavedModels :: Event.enumerateRegistry ::
          env.project.saved_model_ids.map Event.getActiveVersion) := by
  cases hl : env.project.saved_model_ids with
  | nil => exact absurd hl hne
  | cons x xs => simp [runCore, hl, hreg]

theorem runCore_report (env : CoreEnv) (rep : RunReport)
    (hne : env.project.saved_model_ids ≠ [])
    (hrun : (runCore env).1 = CoreOutcome.ok rep) :
    ∃ cols, env.registry = EnumResult.ok cols ∧
      rep.results = reconcile env.project (artifact_names (collect_artifacts cols)) ∧
      rep.any_published = any_published_fold rep.results ∧
      rep.exitCode = (if !rep.any_published && fail_flag env.failOnNoPublish then 1 else 0) := by
  cases hreg : env.registry with
  | fail c e =>
    rw [runCore_fail_eq env hne c e hreg] at hrun
    simp at hrun
  | ok cols =>
    rw [runCore_ok_eq env hne cols hreg] at hrun
    have h := CoreOutcome.ok.inj hrun
    subst h
    exact ⟨cols, rfl, rfl, rfl, rfl⟩

theorem mem_results_inv (env : CoreEnv) (rep : RunReport) (r : ReconciliationResult)
    (hrun : (runCore env).1 = CoreOutcome.ok rep)
    (hr : r ∈ rep.results) :
    ∃ cols, env.registry = EnumResult.ok cols ∧
      r.modelId ∈ env.project.saved_model_ids ∧
      r.activeId = env.project.get_active_version r.modelId ∧
      r.identifier = model_identifier r.modelId r.activeId ∧
      r.matched = candidate_artifacts r.identifier (artifact_names (collect_artifacts cols)) := by
  by_cases hne : env.project.saved_model_ids = []
  · rw [runCore_nil env hne] at hrun
    have h := CoreOutcome.ok.inj hrun
    subst h
    simp at hr
  · obtain ⟨cols, hreg, hres, -, -⟩ := runCore_report env rep hne hrun
    rw [hres] at hr
    simp only [reconcile, List.mem_map] at hr
    obtain ⟨sm, hsm, rfl⟩ := hr
    exact ⟨cols, hreg, hsm, rfl, rfl, rfl⟩

/-
Claim theorems.
-/

/-- Claim C1: in any completed run, each model's matched sequence is exactly
the filter of the collected model-typed artifact pool, in collection order
(a sublist, no re-sorting), keeping precisely those artifacts whose
`source_name` contains the model identifier as a contiguous, unanchored
substring. -/
theorem C1_matched_is_containment_filter (env : CoreEnv) (cols : List WBCollection)
    (rep : RunReport) (r : ReconciliationResult)
    (hreg : env.registry = EnumResult.ok cols)
    (hrun : (runCore env).1 = CoreOutcome.ok rep)
    (hr : r ∈ rep.results) :
    r.matched =
      (artifact_names (collect_artifacts cols)).filter
        (fun a => strContains r.identifier a.name) ∧
    r.matched.Sublist (artifact_names (collect_artifacts cols)) ∧
    (∀ a : ArtifactName,
      a ∈ r.matched ↔
        a ∈ artifact_names (collect_artifacts cols) ∧ r.identifier.data <:+: a.name.data) := by
  obtain ⟨cols2, hreg2, -, -, -, hm⟩ := mem_results_inv env rep r hrun hr
  rw [hreg] at hreg2
  cases hreg2
  refine ⟨hm, ?_, ?_⟩
  · rw [hm]
    exact List.filter_sublist _
  · intro a
    rw [hm]
    simp [candidate_artifacts, List.mem_filter, strContains_iff]

/-- Claim C2: in any completed run, every per-model result carries the
identifier `"dataiku-" ++ id ++ "-" ++ active_version_id`, where `id` is the
listed saved-model id and `active_version_id` the version resolved for it;
`model_identifier` is a pure function of that pair, yielding exactly that
concatenation. -/
theorem C2_identifier_construction (env : CoreEnv) (rep : RunReport)
    (hrun : (runCore env).1 = CoreOutcome.ok rep) :
    (∀ r ∈ rep.results,
        r.identifier = "dataiku-" ++ r.modelId ++ "-" ++ r.activeId ∧
        r.activeId = env.project.get_active_version r.modelId ∧
        r.identifier = model_identifier r.modelId r.activeId ∧
        r.modelId ∈ env.project.saved_model_ids) ∧
    (∀ sm active_id : String,
        model_identifier sm active_id = "dataiku-" ++ sm ++ "-" ++ active_id) := by
  refine ⟨?_, fun _ _ => rfl⟩
  intro r hr
  obtain ⟨cols, -, hsm, hact, hid, -⟩ := mem_results_inv env rep r hrun hr
  exact ⟨hid, hact, hid, hsm⟩

/-- Claim C3: an enumerated artifact enters the collected pool iff its type,
compared case-insensitively after Python truthiness, equals `"model"`:
`Dataset`, `"model "` (trailing space), absent and empty types are excluded,
`MODEL`/`Model` are included; and the matching phase of a completed run
draws its matches only from that already-filtered pool, so filtering happens
once, at collection time, before any identifier comparison. -/
theorem C3_type_filter_before_matching :
    (∀ (cols : List WBCollection) (rec : ArtifactRec),
        rec ∈ collect_artifacts cols ↔
          ∃ c ∈ cols, ∃ a ∈ c.artifacts, is_model_type a.type = true ∧
            rec = ⟨c.name, a.source_name, a.qualified_name⟩) ∧
    (∀ t : Option String, is_model_type t = true ↔ ∃ s, t = some s ∧ pyLower s = "model") ∧
    is_model_type (some "Dataset") = false ∧
    is_model_type (some "model ") = false ∧
    is_model_type none = false ∧
    is_model_type (some "") = false ∧
    is_model_type (some "MODEL") = true ∧
    is_model_type (some "Model") = true ∧
    (∀ (env : CoreEnv) (cols : List WBCollection) (rep : RunReport)
        (r : ReconciliationResult) (a : ArtifactName),
        env.registry = EnumResult.ok cols → (runCore env).1 = CoreOutcome.ok rep →
        r ∈ rep.results → a ∈ r.matched →
        a ∈ artifact_names (collect_artifacts cols)) := by
  refine ⟨mem_collect_artifacts, is_model_type_iff, by decide, by decide, rfl, by decide,
    by decide, by decide, ?_⟩
  intro env cols rep r a hreg hrun hr ha
  obtain ⟨cols2, hreg2, -, -, -, hm⟩ := mem_results_inv env rep r hrun hr
  rw [hreg] at hreg2
  cases hreg2
  rw [hm] at ha
  exact (List.mem_filter.mp ha).1

/-- Claim C4: in any completed run over a non-empty saved-model list, the
final `any_published` equals the disjunction, over all per-model results, of
the per-model published flag (matched sequence non-empty): it is true iff at
least one model has a non-empty matched sequence. -/
theorem C4_any_published_or (env : CoreEnv) (rep : RunReport)
    (hne : env.project.saved_model_ids ≠ [])
    (hrun : (runCore env).1 = CoreOutcome.ok rep) :
    rep.any_published = rep.results.any (fun r => !r.matched.isEmpty) ∧
    (rep.any_published = true ↔ ∃ r ∈ rep.results, r.matched ≠ []) := by
  obtain ⟨cols, -, -, hpub, -⟩ := runCore_report env rep hne hrun
  rw [hpub, any_published_fold_eq]
  constructor
  · rfl
  · simp [List.any_eq_true]

/-- Claim C5: version parsing splits an artifact name on the first `':'`
only: with no colon the base is the whole string and the version tag is
absent; otherwise the base is everything before the first colon and the tag
everything after it, even when the remainder itself contains colons. The
split is a total function, defined for every input string. -/
theorem C5_version_split (s : String) :
    ((':' ∉ s.data) → wb_split s = (s, none)) ∧
    (∀ a b : String, (':' ∉ a.data) → s = a ++ ":" ++ b → wb_split s = (a, some b)) := by
  constructor
  · intro h
    rw [wb_split, splitOnceColon_of_not_mem s.data h]
  · rintro a b ha rfl
    have hdata : (a ++ ":" ++ b).data = a.data ++ ':' :: b.data := by
      rw [String.data_append, String.data_append]
      simp
    rw [wb_split, hdata, splitOnceColon_append a.data b.data ha]

/-- Claim C6: with zero saved models the run ends at the `exit(0)` of line
57: a successful outcome with an empty result list, `any_published = false`
and exit code 0, regardless of the registry contents or the
`FAIL_ON_NO_PUBLISH` switch; the trace shows the registry's collections and
artifacts are never enumerated and no active version is ever resolved. -/
theorem C6_empty_models_trivial_success (env : CoreEnv)
    (h : env.project.saved_model_ids = []) :
    runCore env = (CoreOutcome.ok ⟨[], false, 0⟩, [Event.listSavedModels]) ∧
    Event.enumerateRegistry ∉ (runCore env).2 ∧
    (∀ id : String, Event.getActiveVersion id ∉ (runCore env).2) := by
  have he := runCore_nil env h
  refine ⟨he, ?_, ?_⟩
  · rw [he]
    simp
  · intro id
    rw [he]
    simp

/-- Claim C7, counterexample to the claim as stated: a run over an empty
saved-model list is a completed run with `any_published = false`, yet with
`FAIL_ON_NO_PUBLISH` set to `"true"` it still exits 0 (line 57 runs before
lines 109-113), so such a run does not signal process-level failure even
though the switch is on. -/
theorem C7_counterexample :
    fail_flag (some "true") = true ∧
    runCore ⟨⟨[], fun _ => "v42"⟩, EnumResult.ok [], some "true"⟩ =
      (CoreOutcome.ok ⟨[], false, 0⟩, [Event.listSavedModels]) :=
  ⟨by decide, by decide⟩

/-- Claim C7, amended: in any completed run over a NON-EMPTY saved-model
list in which no model is published, the exit code is 1 iff
`FAIL_ON_NO_PUBLISH`, lowered, equals `"true"`; unset or any other value
gives exit code 0. -/
theorem C7_fail_on_no_publish (env : CoreEnv) (rep : RunReport)
    (hne : env.project.saved_model_ids ≠ [])
    (hrun : (runCore env).1 = CoreOutcome.ok rep)
    (hnp : rep.any_published = false) :
    (rep.exitCode = 1 ↔ pyLower (env.failOnNoPublish.getD "false") = "true") ∧
    (pyLower (env.failOnNoPublish.getD "false") ≠ "true" → rep.exitCode = 0) := by
  obtain ⟨cols, -, -, -, hcode⟩ := runCore_report env rep hne hrun
  rw [hnp] at hcode
  simp only [Bool.not_false, Bool.true_and, fail_flag] at hcode
  by_cases hb : pyLower (env.failOnNoPublish.getD "false") = "true"
  · rw [hcode]
    simp [hb]
  · rw [hcode]
    simp [hb]

/-- Claim C8: if registry enumeration fails (for any error text and however
many collections had already been yielded), the run aborts with the single
wrapped error of line 71 naming the failed remote call, before any
reconciliation (no active version is ever resolved, no report is produced),
and the partially accumulated collections have no effect on the outcome. -/
theorem C8_enumeration_failure_fatal (env : CoreEnv)
    (colsSoFar : List WBCollection) (err : String)
    (hne : env.project.saved_model_ids ≠ [])
    (hreg : env.registry = EnumResult.fail colsSoFar err) :
    runCore env =
      (CoreOutcome.collectionError ("Failed to list W&B artifacts: " ++ err),
        [Event.listSavedModels, Event.enumerateRegistry]) ∧
    (∀ id : String, Event.getActiveVersion id ∉ (runCore env).2) ∧
    (∀ rep : RunReport, (runCore env).1 ≠ CoreOutcome.ok rep) ∧
    (∀ other : List WBCollection,
        runCore ⟨env.project, EnumResult.fail other err, env.failOnNoPublish⟩ = runCore env) := by
  have he := runCore_fail_eq env hne colsSoFar err hreg
  refine ⟨he, ?_, ?_, ?_⟩
  · intro id
    rw [he]
    simp
  · intro rep
    rw [he]
    simp
  · intro other
    rw [he, runCore_fail_eq ⟨env.project, EnumResult.fail other err, env.failOnNoPublish⟩
      hne other err rfl]

/-- Claim C9: when the `wandbcred` secret is absent from the auth info (no
such key, a missing value, or an empty value — Python falsiness), the script
raises the configuration error of line 46 naming the missing secret, and the
trace is empty: no Local Model Source call, no registry enumeration, no
reconciliation work of any kind is performed. -/
theorem C9_missing_secret_fatal (env : ScriptEnv)
    (h : secret_missing (secret_value env.authSecrets) = true) :
    runScript env = (ScriptOutcome.configError "Secret 'wandbcred' not found", []) ∧
    (∀ ev : Event, ev ∉ (runScript env).2) := by
  have he : runScript env = (ScriptOutcome.configError "Secret 'wandbcred' not found", []) := by
    simp [runScript, h]
  refine ⟨he, ?_⟩
  intro ev
  rw [he]
  simp

/-- Claim C10: once the secret check passes, the retrieved value is never
used: line 50 evaluates the global `WANDB_API_KEY`, whose only assignment
(line 28) is commented out, so the script raises `NameError` with an empty
trace — no model listing, no artifact collection. Consequently no execution,
over any inputs, reaches the reconciliation part, and any two environments
differing only in their (present) secret values behave identically. -/
theorem C10_login_references_undefined_name (env : ScriptEnv)
    (h : secret_missing (secret_value env.authSecrets) = false) :
    runScript env = (ScriptOutcome.nameError "WANDB_API_KEY", []) ∧
    module_assigned_names.contains "WANDB_API_KEY" = false ∧
    (∀ env2 : ScriptEnv, ∀ c : CoreOutcome, (runScript env2).1 ≠ ScriptOutcome.finished c) ∧
    (∀ secrets2 : List Secret, secret_missing (secret_value secrets2) = false →
        runScript ⟨secrets2, env.project, env.registry, env.failOnNoPublish⟩ = runScript env) := by
  have hmod : module_assigned_names.contains "WANDB_API_KEY" = false := by decide
  have key : ∀ e : ScriptEnv, secret_missing (secret_value e.authSecrets) = false →
      runScript e = (ScriptOutcome.nameError "WANDB_API_KEY", []) := by
    intro e he
    simp only [runScript, he, Bool.false_eq_true, if_false, hmod]
  refine ⟨key env h, hmod, ?_, ?_⟩
  · intro env2 c
    by_cases h2 : secret_missing (secret_value env2.authSecrets) = true
    · simp [runScript, h2]
    · rw [key env2 (by simpa using h2)]
      simp
  · intro secrets2 h2
    rw [key ⟨secrets2, env.project, env.registry, env.failOnNoPublish⟩ h2, key env h]

/-- Witness for C1 at concrete inputs: the sample run matches exactly the
single model-typed artifact containing `dataiku-m1-v42`. -/
theorem C1_witness :
    sampleEnvA.registry = EnumResult.ok sampleCols ∧
    (runCore sampleEnvA).1 = CoreOutcome.ok sampleRep ∧
    sampleResult ∈ sampleRep.results ∧
    sampleResult.matched =
      (artifact_names (collect_artifacts sampleCols)).filter
        (fun a => strContains sampleResult.identifier a.name) := by
  refine ⟨rfl, by decide, by decide, ?_⟩
  exact (C1_matched_is_containment_filter sampleEnvA sampleCols sampleRep sampleResult rfl
    (by decide) (by decide)).1

/-- Witness for C2 at concrete inputs. -/
theorem C2_witness :
    (runCore sampleEnvA).1 = CoreOutcome.ok sampleRep ∧
    sampleResult.identifier = "dataiku-" ++ sampleResult.modelId ++ "-" ++ sampleResult.activeId := by
  refine ⟨by decide, ?_⟩
  exact ((C2_identifier_construction sampleEnvA sampleRep (by decide)).1 sampleResult
    (by decide)).1

/-- Witness for C3 at concrete inputs: the matched artifact of the sample
run belongs to the filtered pool. -/
theorem C3_witness :
    (⟨"dataiku-m1-v42:v0", "e/p/dataiku-m1-v42:v0"⟩ : ArtifactName) ∈
      artifact_names (collect_artifacts sampleCols) :=
  C3_type_filter_before_matching.2.2.2.2.2.2.2.2 sampleEnvA sampleCols sampleRep sampleResult
    ⟨"dataiku-m1-v42:v0", "e/p/dataiku-m1-v42:v0"⟩ rfl (by decide) (by decide) (by decide)

/-- Witness for C4 at concrete inputs. -/
theorem C4_witness :
    (["m1"] : List String) ≠ [] ∧
    (runCore sampleEnvA).1 = CoreOutcome.ok sampleRep ∧
    sampleRep.any_published = sampleRep.results.any (fun r => !r.matched.isEmpty) := by
  refine ⟨by decide, by decide, ?_⟩
  exact (C4_any_published_or sampleEnvA sampleRep (by decide) (by decide)).1

/-- Witness for C5 at concrete inputs: `"foo:v0"` splits into base and tag,
`"foo"` keeps an absent tag, a second colon stays inside the tag. -/
theorem C5_witness :
    wb_split "foo:v0" = ("foo", some "v0") ∧
    wb_split "foo" = ("foo", none) ∧
    wb_split "a:b:c" = ("a", some "b:c") :=
  ⟨(C5_version_split "foo:v0").2 "foo" "v0" (by decide) (by decide),
   (C5_version_split "foo").1 (by decide),
   (C5_version_split "a:b:c").2 "a" "b:c" (by decide) (by decide)⟩

/-- Witness for C6 at concrete inputs: no saved models, non-empty registry,
switch set — still a trivially successful run with no enumeration. -/
theorem C6_witness :
    runCore sampleEnvEmpty = (CoreOutcome.ok ⟨[], false, 0⟩, [Event.listSavedModels]) ∧
    Event.enumerateRegistry ∉ (runCore sampleEnvEmpty).2 :=
  ⟨(C6_empty_models_trivial_success sampleEnvEmpty rfl).1,
   (C6_empty_models_trivial_success sampleEnvEmpty rfl).2.1⟩

/-- Witness for amended C7: one model, empty registry, switch `"TRUE"`
(case-insensitive) — nothing published and the run exits 1. -/
theorem C7_witness :
    (runCore sampleEnvB).1 = CoreOutcome.ok sampleRepB ∧
    sampleRepB.any_published = false ∧
    (sampleRepB.exitCode = 1 ↔ pyLower ((some "TRUE").getD "false") = "true") := by
  refine ⟨by decide, rfl, ?_⟩
  exact (C7_fail_on_no_publish sampleEnvB sampleRepB (by decide) (by decide) rfl).1

/-- Witness for C8 at concrete inputs. -/
theorem C8_witness :
    runCore sampleEnvFail =
      (CoreOutcome.collectionError ("Failed to list W&B artifacts: " ++ "timeout"),
        [Event.listSavedModels, Event.enumerateRegistry]) :=
  (C8_enumeration_failure_fatal sampleEnvFail sampleCols "timeout" (by decide) rfl).1

/-- Witness for C9 at concrete inputs: auth info with no `wandbcred` entry. -/
theorem C9_witness :
    runScript ⟨[⟨"other", some "x"⟩], sampleProj, EnumResult.ok sampleCols, none⟩ =
      (ScriptOutcome.configError "Secret 'wandbcred' not found", []) :=
  (C9_missing_secret_fatal ⟨[⟨"other", some "x"⟩], sampleProj, EnumResult.ok sampleCols, none⟩
    (by decide)).1

/-- Witness for C10 at concrete inputs: the secret is present and non-empty,
yet the run dies with the `NameError` and an empty trace. -/
theorem C10_witness :
    runScript ⟨[⟨"wandbcred", some "key123"⟩], sampleProj, EnumResult.ok sampleCols, none⟩ =
      (ScriptOutcome.nameError "WANDB_API_KEY", []) :=
  (C10_login_references_undefined_name
    ⟨[⟨"wandbcred", some "key123"⟩], sampleProj, EnumResult.ok sampleCols, none⟩ (by decide)).1
